import Mathlib

/-!
# Verification of `memazouni/applied-machine-learning`

The repository consists of two tutorial documents:

* `src/Statistics/Critical_Values_for_Statistical_Hypothesis_Testing_in_Python.ipynb`:
  three Python code cells, each a straight-line script computing a critical
  value with `scipy`'s percent point function (`ppf`) and confirming it with
  the cumulative density function (`cdf`), for the Gaussian, Student's t and
  Chi-squared distributions.
* `src/unnamed/part_000` (an R Markdown document): four R code chunks, each a
  straight-line recipe fitting a decision-tree regression model (CART,
  bagged CART, random forest, Cubist) to the built-in `longley` dataset,
  printing a fit summary, predicting on the same data and printing the mean
  squared error.

We embed each script as a term of a small statement language, translated
line by line from the source, and give it an executable semantics.  The
numerical behaviour of the external libraries (`scipy`, `rpart`, `ipred`,
`randomForest`, `Cubist`) is not code of this repository; the distribution
functions are modelled from the notebook's *recorded cell outputs* (which are
part of the source file), and the R model-fitting routines are kept abstract
(an oracle parameter of the semantics).
-/

namespace AppliedML

/-! ## The Python distribution scripts -/

/-- The three scipy distributions used by the notebook:
`scipy.stats.norm`, `scipy.stats.t`, `scipy.stats.chi2`. -/
inductive Dist where
  | norm
  | t
  | chi2
deriving DecidableEq, Repr

/-- The slice of the scipy interface the notebook uses: a percent point
function and a cumulative density function for each distribution, the last
argument being the optional degrees-of-freedom parameter. -/
structure DistLib where
  ppf : Dist → ℚ → Option ℚ → ℚ
  cdf : Dist → ℚ → Option ℚ → ℚ

/-- Expressions of the Python cells: literals, variables, and the two
library calls `d.ppf(p[, df])` and `d.cdf(x[, df])`. -/
inductive PExpr where
  | lit (q : ℚ)
  | var (x : String)
  | ppfCall (d : Dist) (p : PExpr) (df : Option PExpr)
  | cdfCall (d : Dist) (x : PExpr) (df : Option PExpr)
deriving Repr

/-- Statements of the Python cells.  The three cells only ever use `assign`
and `printStmt`; `ifStmt` and `assertStmt` are the branching and validation
constructs Python offers, included so that their absence from the embedded
scripts is a checkable fact rather than a limitation of the language. -/
inductive PStmt where
  | assign (x : String) (e : PExpr)
  | printStmt (e : PExpr)
  | ifStmt (c : PExpr) (thn els : PStmt)
  | assertStmt (c : PExpr)
deriving Repr

/-- A variable environment.  Assignments are consed on the front and lookup
takes the most recent binding, so the environment doubles as the history of
assignments made during the run. -/
abbrev PEnv := List (String × ℚ)

/-- Evaluate a Python expression against a library implementation and an
environment; an unbound variable is a failure. -/
def pEval (lib : DistLib) (env : PEnv) : PExpr → Option ℚ
  | .lit q => some q
  | .var x => env.lookup x
  | .ppfCall d p df => do
      let pv ← pEval lib env p
      let dfv ← match df with
        | none => pure (none : Option ℚ)
        | some e => do pure (some (← pEval lib env e))
      pure (lib.ppf d pv dfv)
  | .cdfCall d x df => do
      let xv ← pEval lib env x
      let dfv ← match df with
        | none => pure (none : Option ℚ)
        | some e => do pure (some (← pEval lib env e))
      pure (lib.cdf d xv dfv)

/-- Execute one Python statement: returns the new environment and the list
of numbers printed (Python truthiness: a conditional tests `≠ 0`; a failed
assertion aborts the run). -/
def pExec (lib : DistLib) : PStmt → PEnv → Option (PEnv × List ℚ)
  | .assign x e, env => do
      let v ← pEval lib env e
      pure ((x, v) :: env, [])
  | .printStmt e, env => do
      let v ← pEval lib env e
      pure (env, [v])
  | .ifStmt c thn els, env => do
      let cv ← pEval lib env c
      if cv ≠ 0 then pExec lib thn env else pExec lib els env
  | .assertStmt c, env => do
      let cv ← pEval lib env c
      if cv ≠ 0 then pure (env, []) else none

/-- Run a Python script (a list of statements) from a given environment,
collecting printed output in order. -/
def pRunFrom (lib : DistLib) : List PStmt → PEnv → List ℚ → Option (PEnv × List ℚ)
  | [], env, out => some (env, out)
  | s :: rest, env, out => do
      let (env', o) ← pExec lib s env
      pRunFrom lib rest env' (out ++ o)

/-- Run a Python script from the empty environment. -/
def pRun (lib : DistLib) (prog : List PStmt) : Option (PEnv × List ℚ) :=
  pRunFrom lib prog [] []

/-- The printed output of a Python script. -/
def pOutputs (lib : DistLib) (prog : List PStmt) : Option (List ℚ) :=
  (pRun lib prog).map (·.2)

/-- The Gaussian cell of the notebook:
`p = 0.95; value = norm.ppf(p); print(value); p = norm.cdf(value); print(p)`. -/
def gaussianScript : List PStmt :=
  [ .assign "p" (.lit (95/100)),
    .assign "value" (.ppfCall .norm (.var "p") none),
    .printStmt (.var "value"),
    .assign "p" (.cdfCall .norm (.var "value") none),
    .printStmt (.var "p") ]

/-- The Student's t cell of the notebook:
`p = 0.95; df = 10; value = t.ppf(p, df); print(value); p = t.cdf(value, df); print(p)`. -/
def studentTScript : List PStmt :=
  [ .assign "p" (.lit (95/100)),
    .assign "df" (.lit 10),
    .assign "value" (.ppfCall .t (.var "p") (some (.var "df"))),
    .printStmt (.var "value"),
    .assign "p" (.cdfCall .t (.var "value") (some (.var "df"))),
    .printStmt (.var "p") ]

/-- The Chi-squared cell of the notebook:
`p = 0.95; df = 10; value = chi2.ppf(p, df); print(value); p = chi2.cdf(value, df); print(p)`. -/
def chi2Script : List PStmt :=
  [ .assign "p" (.lit (95/100)),
    .assign "df" (.lit 10),
    .assign "value" (.ppfCall .chi2 (.var "p") (some (.var "df"))),
    .printStmt (.var "value"),
    .assign "p" (.cdfCall .chi2 (.var "value") (some (.var "df"))),
    .printStmt (.var "p") ]

/-! ### The recorded scipy outputs

scipy's numerical internals are not part of this repository; the notebook
records the exact values its cells printed, and those recorded outputs are
the authority for what `ppf` and `cdf` returned at the inputs the scripts
use. -/

/-- Recorded output of `norm.ppf(0.95)`: `1.6448536269514722`. -/
def normPpfVal : ℚ := 16448536269514722 / 10 ^ 16

/-- Recorded output of `t.ppf(0.95, 10)`: `1.8124611228107335`. -/
def tPpfVal : ℚ := 18124611228107335 / 10 ^ 16

/-- Recorded output of `chi2.ppf(0.95, 10)`: `18.307038053275143`. -/
def chi2PpfVal : ℚ := 18307038053275143 / 10 ^ 15

/-- Recorded output of `t.cdf(t.ppf(0.95, 10), 10)`: `0.949999999999923`. -/
def tCdfVal : ℚ := 949999999999923 / 10 ^ 15

/-- The percent point function, at the inputs the notebook exercises, as
fixed by the notebook's recorded cell outputs (scipy itself is external to
the repository; elsewhere the value is irrelevant and defaults to `0`). -/
def scipyPpf (d : Dist) (p : ℚ) (df : Option ℚ) : ℚ :=
  if d = .norm ∧ p = 95/100 ∧ df = none then normPpfVal
  else if d = .t ∧ p = 95/100 ∧ df = some 10 then tPpfVal
  else if d = .chi2 ∧ p = 95/100 ∧ df = some 10 then chi2PpfVal
  else 0

/-- The cumulative density function, at the inputs the notebook exercises,
as fixed by the notebook's recorded cell outputs (the Gaussian and
Chi-squared cells printed `0.95` exactly; the Student's t cell printed
`0.949999999999923`). -/
def scipyCdf (d : Dist) (x : ℚ) (df : Option ℚ) : ℚ :=
  if d = .norm ∧ x = normPpfVal ∧ df = none then 95/100
  else if d = .t ∧ x = tPpfVal ∧ df = some 10 then tCdfVal
  else if d = .chi2 ∧ x = chi2PpfVal ∧ df = some 10 then 95/100
  else 0

/-- The scipy library as recorded by the notebook. -/
def scipy : DistLib := ⟨scipyPpf, scipyCdf⟩

/-! ## The R regression recipes -/

/-- The four model-fitting routines the recipes call:
`rpart::rpart`, `ipred::bagging`, `randomForest::randomForest`,
`Cubist::cubist`. -/
inductive RMethod where
  | rpart
  | bagging
  | randomForest
  | cubist
deriving DecidableEq, Repr

/-- The seven columns of the `longley` dataset, in order. -/
inductive RCol where
  | gnpDeflator
  | gnp
  | unemployed
  | armedForces
  | population
  | year
  | employed
deriving DecidableEq, Repr

/-- The R column name of each `longley` column. -/
def RCol.name : RCol → String
  | .gnpDeflator => "GNP.deflator"
  | .gnp => "GNP"
  | .unemployed => "Unemployed"
  | .armedForces => "Armed.Forces"
  | .population => "Population"
  | .year => "Year"
  | .employed => "Employed"

/-- The columns of `longley`, in dataset order (`Employed` is column 7). -/
def longleyCols : List RCol :=
  [.gnpDeflator, .gnp, .unemployed, .armedForces, .population, .year, .employed]

/-- Modelled from the spec: the `longley` dataset ships with R's `datasets`
package and is not part of this repository; the spec fixes it as "a small
fixed tabular dataset (7 columns, 16 rows of economic observations)".  These
are its 16 `Employed` values (annual employment figures 1947 to 1962), the
only column whose numbers the recipes' own arithmetic consumes (in the mean
squared error). -/
def longleyEmployed : Fin 16 → ℚ :=
  ![60323/1000, 61122/1000, 60171/1000, 61187/1000,
    63221/1000, 63639/1000, 64989/1000, 63761/1000,
    66019/1000, 67857/1000, 68169/1000, 66513/1000,
    68655/1000, 69564/1000, 69331/1000, 70551/1000]

/-- Modelled from the spec: numeric contents of the `longley` columns.  Only
the `Employed` column is ever extracted as a numeric vector by the recipes
(`longley$Employed` and `longley[,7]`); the predictor columns reach the
external fitting routines only as whole columns, so their individual entries
never enter any computation of this embedding and are left at `0`. -/
def RCol.data : RCol → Fin 16 → ℚ
  | .employed => longleyEmployed
  | _ => fun _ => 0

/-- R expressions of the four recipe chunks: the dataset variable and its
column slices, the fitting calls (formula interface `m(Employed~., data=d)`
with an optional `minsplit` control, and matrix interface `cubist(x, y)`),
`predict(fit, newdata)`, and the arithmetic of the MSE line
`mean((longley$Employed - predictions)^2)`. -/
inductive RExpr where
  | var (x : String)
  | selectCols (d : RExpr) (lo hi : ℕ)
  | selectCol (d : RExpr) (i : ℕ)
  | dollar (d : RExpr) (col : String)
  | fitFormula (m : RMethod) (target : String) (data : RExpr) (minsplit : Option ℕ)
  | fitXY (m : RMethod) (x y : RExpr)
  | predictCall (fit newdata : RExpr)
  | subtract (a b : RExpr)
  | square (e : RExpr)
  | meanOf (e : RExpr)
deriving Repr

/-- R runtime values: a data-frame view (a list of `longley` columns), a
dataset column, a computed numeric vector of length 16, a scalar, and a
fitted model object (which records the method, the predictor columns, the
target column and the `minsplit` control it was built from). -/
inductive RValue where
  | table (cols : List RCol)
  | colVec (c : RCol)
  | numvec (v : Fin 16 → ℚ)
  | scalar (q : ℚ)
  | fitObj (m : RMethod) (predictors : List RCol) (target : RCol) (minsplit : Option ℕ)

/-- Coerce a value to a numeric vector when it is one. -/
def RValue.toVec : RValue → Option (Fin 16 → ℚ)
  | .colVec c => some c.data
  | .numvec v => some v
  | _ => none

/-- The behaviour of the external libraries' `predict` on fitted models: the
tree induction and ensembling of `rpart`, `ipred`, `randomForest` and
`Cubist` are not code of this repository, so the predictions are an oracle
parameter, a function of the method, the predictor and target columns the
model was fitted on, and the columns of the data predicted on. -/
abbrev ROracle := RMethod → List RCol → RCol → List RCol → Fin 16 → ℚ

/-- An R environment; like `PEnv`, the cons-history records every binding. -/
abbrev REnv := List (String × RValue)

/-- Evaluate an R expression.  `d[,lo:hi]` and `d[,i]` slice a data frame by
position, `d$col` selects a column by name, the formula interface
`m(target ~ ., data = d)` uses every other column of `d` as predictor, and
`predict(fit, newdata)` consults the oracle. -/
def rEval (oracle : ROracle) (env : REnv) : RExpr → Option RValue
  | .var x => env.lookup x
  | .selectCols d lo hi => do
      match ← rEval oracle env d with
      | .table cols => pure (.table ((cols.drop (lo - 1)).take (hi - lo + 1)))
      | _ => none
  | .selectCol d i => do
      match ← rEval oracle env d with
      | .table cols => (cols.get? (i - 1)).map .colVec
      | _ => none
  | .dollar d col => do
      match ← rEval oracle env d with
      | .table cols => (cols.find? (fun c => c.name == col)).map .colVec
      | _ => none
  | .fitFormula m target d ms => do
      match ← rEval oracle env d with
      | .table cols => do
          let tc ← cols.find? (fun c => c.name == target)
          pure (.fitObj m (cols.filter (fun c => ¬ c.name == target)) tc ms)
      | _ => none
  | .fitXY m x y => do
      match ← rEval oracle env x, ← rEval oracle env y with
      | .table cols, .colVec c => pure (.fitObj m cols c none)
      | _, _ => none
  | .predictCall f nd => do
      match ← rEval oracle env f, ← rEval oracle env nd with
      | .fitObj m preds tgt _, .table cols => pure (.numvec (oracle m preds tgt cols))
      | _, _ => none
  | .subtract a b => do
      let va ← (← rEval oracle env a).toVec
      let vb ← (← rEval oracle env b).toVec
      pure (.numvec (fun i => va i - vb i))
  | .square e => do
      let v ← (← rEval oracle env e).toVec
      pure (.numvec (fun i => v i ^ 2))
  | .meanOf e => do
      let v ← (← rEval oracle env e).toVec
      pure (.scalar ((∑ i, v i) / 16))

/-- What a recipe emits on standard output: a printed number (`print` of a
scalar), some other printed value, or the textual report of `summary(fit)`. -/
inductive ROut where
  | num (q : ℚ)
  | printedValue (v : RValue)
  | summaryReport (v : RValue)

/-- `true` exactly on a printed floating-point number. -/
def ROut.isNum : ROut → Bool
  | .num _ => true
  | _ => false

/-- R statements of the recipe chunks.  The recipes only ever use the first
five; `ifStmt` and `stopifnot` are R's branching and validation constructs,
included so that their absence from the recipes is a checkable fact. -/
inductive RStmt where
  | libraryCall (pkg : String)
  | loadData
  | assign (x : String) (e : RExpr)
  | summaryStmt (e : RExpr)
  | printStmt (e : RExpr)
  | ifStmt (c : RExpr) (thn els : RStmt)
  | stopifnot (c : RExpr)

/-- Execute one R statement.  `library(pkg)` only makes a package available;
`data(longley)` binds `longley` to the full 7-column table; a top-level
`summary(fit)` prints a summary of the fit; `print` prints its value. -/
def rExec (oracle : ROracle) : RStmt → REnv → Option (REnv × List ROut)
  | .libraryCall _, env => some (env, [])
  | .loadData, env => some (("longley", .table longleyCols) :: env, [])
  | .assign x e, env => do
      let v ← rEval oracle env e
      pure ((x, v) :: env, [])
  | .summaryStmt e, env => do
      let v ← rEval oracle env e
      pure (env, [.summaryReport v])
  | .printStmt e, env => do
      let v ← rEval oracle env e
      match v with
      | .scalar q => pure (env, [.num q])
      | _ => pure (env, [.printedValue v])
  | .ifStmt c thn els, env => do
      match ← rEval oracle env c with
      | .scalar q => if q ≠ 0 then rExec oracle thn env else rExec oracle els env
      | _ => none
  | .stopifnot c, env => do
      match ← rEval oracle env c with
      | .scalar q => if q ≠ 0 then pure (env, []) else none
      | _ => none

/-- Run an R recipe from a given environment, collecting output in order. -/
def rRunFrom (oracle : ROracle) : List RStmt → REnv → List ROut → Option (REnv × List ROut)
  | [], env, out => some (env, out)
  | s :: rest, env, out => do
      let (env', o) ← rExec oracle s env
      rRunFrom oracle rest env' (out ++ o)

/-- Run an R recipe from the empty environment. -/
def rRun (oracle : ROracle) (prog : List RStmt) : Option (REnv × List ROut) :=
  rRunFrom oracle prog [] []

/-- The output of an R recipe. -/
def rOutputs (oracle : ROracle) (prog : List RStmt) : Option (List ROut) :=
  (rRun oracle prog).map (·.2)

/-- The shared tail of all four recipes:
`summary(fit)`, `predictions <- predict(fit, longley[,1:6])`,
`mse <- mean((longley$Employed - predictions)^2)`, `print(mse)`. -/
def recipeTail : List RStmt :=
  [ .summaryStmt (.var "fit"),
    .assign "predictions" (.predictCall (.var "fit") (.selectCols (.var "longley") 1 6)),
    .assign "mse" (.meanOf (.square (.subtract (.dollar (.var "longley") "Employed") (.var "predictions")))),
    .printStmt (.var "mse") ]

/-- The CART recipe:
`library(rpart); data(longley);`
`fit <- rpart(Employed~., data=longley, control=rpart.control(minsplit=5))`,
then the shared tail. -/
def cartRecipe : List RStmt :=
  [ .libraryCall "rpart",
    .loadData,
    .assign "fit" (.fitFormula .rpart "Employed" (.var "longley") (some 5)) ]
  ++ recipeTail

/-- The bagging recipe:
`library(ipred); data(longley);`
`fit <- bagging(Employed~., data=longley, control=rpart.control(minsplit=5))`,
then the shared tail. -/
def baggingRecipe : List RStmt :=
  [ .libraryCall "ipred",
    .loadData,
    .assign "fit" (.fitFormula .bagging "Employed" (.var "longley") (some 5)) ]
  ++ recipeTail

/-- The random forest recipe:
`library(randomForest); data(longley); fit <- randomForest(Employed~., data=longley)`,
then the shared tail. -/
def randomForestRecipe : List RStmt :=
  [ .libraryCall "randomForest",
    .loadData,
    .assign "fit" (.fitFormula .randomForest "Employed" (.var "longley") none) ]
  ++ recipeTail

/-- The Cubist recipe:
`library(Cubist); data(longley); fit <- cubist(longley[,1:6], longley[,7])`,
then the shared tail. -/
def cubistRecipe : List RStmt :=
  [ .libraryCall "Cubist",
    .loadData,
    .assign "fit" (.fitXY .cubist (.selectCols (.var "longley") 1 6) (.selectCol (.var "longley") 7)) ]
  ++ recipeTail

/-- The six predictor columns: `longley[,1:6]`, equally the columns of
`Employed ~ .` over `longley`. -/
def predictorCols : List RCol :=
  [.gnpDeflator, .gnp, .unemployed, .armedForces, .population, .year]

/-- The mean squared error of the recipes' line
`mse <- mean((longley$Employed - predictions)^2)`: the mean of the 16
squared differences between the `Employed` column and the predictions. -/
def mseFun (y pred : Fin 16 → ℚ) : ℚ :=
  (∑ i, (y i - pred i) ^ 2) / 16

/-! ## Observers on script runs -/

/-- The first number a distribution script prints: the critical value. -/
def criticalValue (lib : DistLib) (prog : List PStmt) : Option ℚ :=
  (pOutputs lib prog).bind (·.get? 0)

/-- The second number a distribution script prints: the confirmation
probability obtained by feeding the critical value back to the cdf. -/
def confirmedProb (lib : DistLib) (prog : List PStmt) : Option ℚ :=
  (pOutputs lib prog).bind (·.get? 1)

/-- Every value a run of a Python script binds to variable `x`, most recent
first (the environment is a cons-history, so it records all assignments). -/
def pAssignedTo (x : String) (lib : DistLib) (prog : List PStmt) : List ℚ :=
  ((pRun lib prog).map (fun r => (r.1.filter (fun b => b.1 == x)).map (·.2))).getD []

/-- Round to `k` decimal places. -/
def roundTo (k : ℕ) (x : ℚ) : ℚ := (round (x * 10 ^ k) : ℤ) / 10 ^ k

/-- The fitted model a recipe run binds to `fit`. -/
def fittedOf (oracle : ROracle) (prog : List RStmt) : Option RValue :=
  (rRun oracle prog).bind (fun r => r.1.lookup "fit")

/-- The prediction vector a recipe run binds to `predictions`. -/
def predictionsOf (oracle : ROracle) (prog : List RStmt) : Option RValue :=
  (rRun oracle prog).bind (fun r => r.1.lookup "predictions")

/-- The last thing a recipe run prints (its `print(mse)` line). -/
def lastPrinted (oracle : ROracle) (prog : List RStmt) : Option ROut :=
  (rOutputs oracle prog).bind List.getLast?

/-! ## Syntactic checkers

The claims about control flow and validation are claims about the shape of
the code, settled by decidable checkers over the embedded syntax. -/

/-- A Python statement that neither branches nor asserts. -/
def PStmt.straightLine : PStmt → Bool
  | .assign _ _ => true
  | .printStmt _ => true
  | _ => false

/-- An R statement that neither branches nor validates. -/
def RStmt.straightLine : RStmt → Bool
  | .ifStmt _ _ _ => false
  | .stopifnot _ => false
  | _ => true

/-- Number of conditional or assertion constructs in a Python statement. -/
def PStmt.guardCount : PStmt → ℕ
  | .ifStmt _ thn els => 1 + thn.guardCount + els.guardCount
  | .assertStmt _ => 1
  | _ => 0

/-- Number of conditional or validation constructs in an R statement. -/
def RStmt.guardCount : RStmt → ℕ
  | .ifStmt _ thn els => 1 + thn.guardCount + els.guardCount
  | .stopifnot _ => 1
  | _ => 0

/-- `true` exactly on the step pattern of a distribution cell: set the
probability from a literal (optionally also a degrees-of-freedom literal),
assign the `ppf` call on it, print the result, reassign `p` to the `cdf` of
the very variable holding the `ppf` result (same distribution, same
degrees of freedom), and print it. -/
def isDistCallSequence : List PStmt → Bool
  | [.assign p (.lit _),
     .assign v (.ppfCall d (.var p₁) none),
     .printStmt (.var v₁),
     .assign p₂ (.cdfCall d' (.var v₂) none),
     .printStmt (.var p₃)] =>
      p == p₁ && v == v₁ && v == v₂ && p == p₂ && p == p₃ && d == d'
  | [.assign p (.lit _),
     .assign df (.lit _),
     .assign v (.ppfCall d (.var p₁) (some (.var df₁))),
     .printStmt (.var v₁),
     .assign p₂ (.cdfCall d' (.var v₂) (some (.var df₂))),
     .printStmt (.var p₃)] =>
      p == p₁ && v == v₁ && v == v₂ && p == p₂ && p == p₃ &&
      df == df₁ && df == df₂ && d == d'
  | _ => false

/-- `true` exactly on a fitting call (formula or matrix interface). -/
def isFitExpr : RExpr → Bool
  | .fitFormula _ _ _ _ => true
  | .fitXY _ _ _ => true
  | _ => false

/-- `true` exactly on the step pattern of a regression recipe: load the
package, load the dataset, assign a fitting call to `fit`, summarize that
fit, assign `predict` of that same fit to `predictions`, assign the mean of
the squared differences against those predictions to `mse`, and print it. -/
def isRecipeSequence : List RStmt → Bool
  | [.libraryCall _,
     .loadData,
     .assign f fe,
     .summaryStmt (.var f₁),
     .assign pr (.predictCall (.var f₂) _),
     .assign m (.meanOf (.square (.subtract _ (.var pr₁)))),
     .printStmt (.var m₁)] =>
      isFitExpr fe && f == f₁ && f == f₂ && pr == pr₁ && m == m₁
  | _ => false

/-- A prediction oracle used to instantiate universally quantified
statements at a concrete input: every model predicts the zero vector. -/
def zeroOracle : ROracle := fun _ _ _ _ _ => 0

/-! ## Evaluation lemmas -/

/-- Whatever the library does, the Gaussian cell prints the `ppf` of `0.95`
and then the `cdf` of that very value. -/
lemma pOutputs_gaussian (lib : DistLib) :
    pOutputs lib gaussianScript =
      some [lib.ppf .norm (95/100) none,
            lib.cdf .norm (lib.ppf .norm (95/100) none) none] := rfl

/-- Whatever the library does, the Student's t cell prints the `ppf` of
`0.95` with 10 degrees of freedom and then the `cdf` of that very value. -/
lemma pOutputs_studentT (lib : DistLib) :
    pOutputs lib studentTScript =
      some [lib.ppf .t (95/100) (some 10),
            lib.cdf .t (lib.ppf .t (95/100) (some 10)) (some 10)] := rfl

/-- Whatever the library does, the Chi-squared cell prints the `ppf` of
`0.95` with 10 degrees of freedom and then the `cdf` of that very value. -/
lemma pOutputs_chi2 (lib : DistLib) :
    pOutputs lib chi2Script =
      some [lib.ppf .chi2 (95/100) (some 10),
            lib.cdf .chi2 (lib.ppf .chi2 (95/100) (some 10)) (some 10)] := rfl

/-- With the recorded scipy behaviour, the Gaussian cell prints exactly its
two recorded outputs. -/
lemma pOutputs_gaussian_scipy :
    pOutputs scipy gaussianScript = some [normPpfVal, 95/100] := by
  rw [pOutputs_gaussian]
  show some [scipyPpf .norm (95/100) none,
             scipyCdf .norm (scipyPpf .norm (95/100) none) none] = _
  simp [scipyPpf, scipyCdf]

/-- With the recorded scipy behaviour, the Student's t cell prints exactly
its two recorded outputs. -/
lemma pOutputs_studentT_scipy :
    pOutputs scipy studentTScript = some [tPpfVal, tCdfVal] := by
  rw [pOutputs_studentT]
  show some [scipyPpf .t (95/100) (some 10),
             scipyCdf .t (scipyPpf .t (95/100) (some 10)) (some 10)] = _
  simp [scipyPpf, scipyCdf]

/-- With the recorded scipy behaviour, the Chi-squared cell prints exactly
its two recorded outputs. -/
lemma pOutputs_chi2_scipy :
    pOutputs scipy chi2Script = some [chi2PpfVal, 95/100] := by
  rw [pOutputs_chi2]
  show some [scipyPpf .chi2 (95/100) (some 10),
             scipyCdf .chi2 (scipyPpf .chi2 (95/100) (some 10)) (some 10)] = _
  simp [scipyPpf, scipyCdf]

/-! ## The claims -/

/-- C1: for each of the three distribution scripts, composing `ppf` with
`cdf` at `p = 0.95` (degrees of freedom 10 where applicable) is a round
trip: the confirmation probability each script prints differs from `0.95`
by at most `10⁻¹²` (it is exactly `0.95` for the Gaussian and Chi-squared
scripts and `0.949999999999923` for the Student's t script). -/
theorem cdf_ppf_roundtrip :
    ∃ qg qt qc,
      confirmedProb scipy gaussianScript = some qg ∧ |qg - 95/100| ≤ 1 / 10 ^ 12 ∧
      confirmedProb scipy studentTScript = some qt ∧ |qt - 95/100| ≤ 1 / 10 ^ 12 ∧
      confirmedProb scipy chi2Script = some qc ∧ |qc - 95/100| ≤ 1 / 10 ^ 12 := by
  refine ⟨95/100, tCdfVal, 95/100, ?_, ?_, ?_, ?_, ?_, ?_⟩
  · simp [confirmedProb, pOutputs_gaussian_scipy]
  · simp
  · simp [confirmedProb, pOutputs_studentT_scipy]
  · rw [abs_le]; constructor <;> norm_num [tCdfVal]
  · simp [confirmedProb, pOutputs_chi2_scipy]
  · simp

/-- C2: the mean squared error of the regression recipes — the mean of the
16 squared differences between the `Employed` column of `longley` and the
predictions — is non-negative for every prediction vector, and is zero
exactly when every prediction equals the corresponding `Employed` value. -/
theorem mse_nonneg_and_zero_iff_perfect (pred : Fin 16 → ℚ) :
    0 ≤ mseFun longleyEmployed pred ∧
      (mseFun longleyEmployed pred = 0 ↔ ∀ i, pred i = longleyEmployed i) := by
  constructor
  · apply div_nonneg _ (by norm_num)
    exact Finset.sum_nonneg fun i _ => sq_nonneg _
  · rw [mseFun, div_eq_zero_iff]
    constructor
    · rintro (h | h)
      · intro i
        have h₁ := (Finset.sum_eq_zero_iff_of_nonneg fun j _ => sq_nonneg _).mp h
          i (Finset.mem_univ i)
        have h₂ := pow_eq_zero_iff (n := 2) (by norm_num) |>.mp h₁
        linarith [sub_eq_zero.mp h₂]
      · norm_num at h
    · intro h
      left
      apply Finset.sum_eq_zero
      intro i _
      rw [h i]
      ring

/-- C2 witness: evaluating the two parts at concrete prediction vectors —
the MSE of the perfect predictor (the `Employed` column itself) is zero,
and the MSE of the zero predictor is non-negative and non-zero. -/
theorem mse_nonneg_and_zero_iff_perfect_witness :
    mseFun longleyEmployed longleyEmployed = 0 ∧
      0 ≤ mseFun longleyEmployed (fun _ => 0) := by
  constructor
  · exact (mse_nonneg_and_zero_iff_perfect longleyEmployed).2.mpr fun i => rfl
  · exact (mse_nonneg_and_zero_iff_perfect (fun _ => 0)).1

/-- C3: the Gaussian script's critical value is the recorded
`1.6448536269514722`, which equals `1.6449` when rounded to four decimal
places. -/
theorem gaussian_critical_value :
    criticalValue scipy gaussianScript = some normPpfVal ∧
      roundTo 4 normPpfVal = 16449 / 10 ^ 4 := by
  constructor
  · simp [criticalValue, pOutputs_gaussian_scipy]
  · rw [roundTo, normPpfVal, round_eq]
    norm_num

/-- C4: the Student's t script's critical value is the recorded
`1.8124611228107335`, which equals `1.8125` when rounded to four decimal
places. -/
theorem studentT_critical_value :
    criticalValue scipy studentTScript = some tPpfVal ∧
      roundTo 4 tPpfVal = 18125 / 10 ^ 4 := by
  constructor
  · simp [criticalValue, pOutputs_studentT_scipy]
  · rw [roundTo, tPpfVal, round_eq]
    norm_num

/-- C5: the Chi-squared script's critical value is the recorded
`18.307038053275143`, which equals `18.307` when rounded to three decimal
places. -/
theorem chi2_critical_value :
    criticalValue scipy chi2Script = some chi2PpfVal ∧
      roundTo 3 chi2PpfVal = 18307 / 10 ^ 3 := by
  constructor
  · simp [criticalValue, pOutputs_chi2_scipy]
  · rw [roundTo, chi2PpfVal, round_eq]
    norm_num

/-- C6 counterexample: the claim that every script's output consists only
of floating-point numbers fails on the CART recipe (run here with the
all-zero prediction oracle): its `summary(fit)` step prints a textual model
summary, so not every element of its output is a printed number. -/
theorem only_numbers_printed_counterexample :
    ((rOutputs zeroOracle cartRecipe).getD []).all ROut.isNum = false := rfl

/-- C6 amended: each distribution script prints exactly two floating-point
numbers (the critical value and the confirmation probability); each
regression recipe prints the textual summary of its fitted model (from
`summary(fit)`) followed by exactly one floating-point number, the mean
squared error — and nothing else. -/
theorem printed_output_shape :
    pOutputs scipy gaussianScript = some [normPpfVal, 95/100] ∧
    pOutputs scipy studentTScript = some [tPpfVal, tCdfVal] ∧
    pOutputs scipy chi2Script = some [chi2PpfVal, 95/100] ∧
    ∀ oracle : ROracle,
      rOutputs oracle cartRecipe =
        some [.summaryReport (.fitObj .rpart predictorCols .employed (some 5)),
              .num (mseFun longleyEmployed (oracle .rpart predictorCols .employed predictorCols))] ∧
      rOutputs oracle baggingRecipe =
        some [.summaryReport (.fitObj .bagging predictorCols .employed (some 5)),
              .num (mseFun longleyEmployed (oracle .bagging predictorCols .employed predictorCols))] ∧
      rOutputs oracle randomForestRecipe =
        some [.summaryReport (.fitObj .randomForest predictorCols .employed none),
              .num (mseFun longleyEmployed (oracle .randomForest predictorCols .employed predictorCols))] ∧
      rOutputs oracle cubistRecipe =
        some [.summaryReport (.fitObj .cubist predictorCols .employed none),
              .num (mseFun longleyEmployed (oracle .cubist predictorCols .employed predictorCols))] :=
  ⟨pOutputs_gaussian_scipy, pOutputs_studentT_scipy, pOutputs_chi2_scipy,
   fun _ => ⟨rfl, rfl, rfl, rfl⟩⟩

/-- C7: every code excerpt is a straight-line, unconditional call sequence:
each statement of each of the seven scripts is a plain assignment, print,
summary, library or data-loading statement (no conditional anywhere), the
three distribution scripts follow exactly the pattern "set probability (and
degrees of freedom), call `ppf`, print, call `cdf` on the `ppf` result,
print", and the four recipes follow exactly the pattern "load package,
load dataset, fit, summarize, predict with the fit, compute the mean
squared error against the predictions, print". -/
theorem straight_line_call_sequences :
    (gaussianScript.all PStmt.straightLine = true ∧
     studentTScript.all PStmt.straightLine = true ∧
     chi2Script.all PStmt.straightLine = true ∧
     cartRecipe.all RStmt.straightLine = true ∧
     baggingRecipe.all RStmt.straightLine = true ∧
     randomForestRecipe.all RStmt.straightLine = true ∧
     cubistRecipe.all RStmt.straightLine = true) ∧
    (isDistCallSequence gaussianScript = true ∧
     isDistCallSequence studentTScript = true ∧
     isDistCallSequence chi2Script = true) ∧
    (isRecipeSequence cartRecipe = true ∧
     isRecipeSequence baggingRecipe = true ∧
     isRecipeSequence randomForestRecipe = true ∧
     isRecipeSequence cubistRecipe = true) := by
  decide

/-- C8: no script validates its inputs or has an error branch: the count of
conditional and assertion/validation constructs in all seven scripts is
zero — in particular the probability `0.95` and the degrees of freedom `10`
reach `ppf` and `cdf` with no check that they lie in any domain. -/
theorem no_validation_no_error_branch :
    (gaussianScript.map PStmt.guardCount).sum = 0 ∧
    (studentTScript.map PStmt.guardCount).sum = 0 ∧
    (chi2Script.map PStmt.guardCount).sum = 0 ∧
    (cartRecipe.map RStmt.guardCount).sum = 0 ∧
    (baggingRecipe.map RStmt.guardCount).sum = 0 ∧
    (randomForestRecipe.map RStmt.guardCount).sum = 0 ∧
    (cubistRecipe.map RStmt.guardCount).sum = 0 := by
  decide

/-- C9: as long as the library's `cdf` returns values in `[0,1]` (the
defining property of a cumulative density function), every value the three
distribution scripts ever bind to `p` — the literal `0.95` and the
reassigned `cdf` output — lies in `[0,1]`, and the only degrees-of-freedom
value ever bound is the literal `10`, a positive integer. -/
theorem probabilities_in_unit_interval (lib : DistLib)
    (hcdf : ∀ d x df, 0 ≤ lib.cdf d x df ∧ lib.cdf d x df ≤ 1) :
    (∀ q ∈ pAssignedTo "p" lib gaussianScript, 0 ≤ q ∧ q ≤ 1) ∧
    (∀ q ∈ pAssignedTo "p" lib studentTScript, 0 ≤ q ∧ q ≤ 1) ∧
    (∀ q ∈ pAssignedTo "p" lib chi2Script, 0 ≤ q ∧ q ≤ 1) ∧
    pAssignedTo "df" lib gaussianScript = [] ∧
    pAssignedTo "df" lib studentTScript = [10] ∧
    pAssignedTo "df" lib chi2Script = [10] ∧
    (0 : ℚ) < 10 ∧ (10 : ℚ).den = 1 := by
  refine ⟨?_, ?_, ?_, rfl, rfl, rfl, by norm_num, rfl⟩
  · have he : pAssignedTo "p" lib gaussianScript =
        [lib.cdf .norm (lib.ppf .norm (95/100) none) none, 95/100] := rfl
    rw [he]
    intro q hq
    rcases List.mem_cons.mp hq with h | h
    · exact h ▸ hcdf _ _ _
    · have h' : q = 95/100 := by simpa using h
      rw [h']; constructor <;> norm_num
  · have he : pAssignedTo "p" lib studentTScript =
        [lib.cdf .t (lib.ppf .t (95/100) (some 10)) (some 10), 95/100] := rfl
    rw [he]
    intro q hq
    rcases List.mem_cons.mp hq with h | h
    · exact h ▸ hcdf _ _ _
    · have h' : q = 95/100 := by simpa using h
      rw [h']; constructor <;> norm_num
  · have he : pAssignedTo "p" lib chi2Script =
        [lib.cdf .chi2 (lib.ppf .chi2 (95/100) (some 10)) (some 10), 95/100] := rfl
    rw [he]
    intro q hq
    rcases List.mem_cons.mp hq with h | h
    · exact h ▸ hcdf _ _ _
    · have h' : q = 95/100 := by simpa using h
      rw [h']; constructor <;> norm_num

/-- C9 witness: the recorded scipy behaviour satisfies the cdf-range
hypothesis (its recorded outputs `0.95` and `0.949999999999923` and its
default `0` all lie in `[0,1]`), so the conclusion holds for the actual
notebook runs. -/
theorem probabilities_in_unit_interval_witness :
    (∀ q ∈ pAssignedTo "p" scipy gaussianScript, 0 ≤ q ∧ q ≤ 1) ∧
    (∀ q ∈ pAssignedTo "p" scipy studentTScript, 0 ≤ q ∧ q ≤ 1) ∧
    (∀ q ∈ pAssignedTo "p" scipy chi2Script, 0 ≤ q ∧ q ≤ 1) ∧
    pAssignedTo "df" scipy gaussianScript = [] ∧
    pAssignedTo "df" scipy studentTScript = [10] ∧
    pAssignedTo "df" scipy chi2Script = [10] ∧
    (0 : ℚ) < 10 ∧ (10 : ℚ).den = 1 :=
  probabilities_in_unit_interval scipy (by
    intro d x df
    show 0 ≤ scipyCdf d x df ∧ scipyCdf d x df ≤ 1
    unfold scipyCdf
    split_ifs <;> constructor <;> norm_num [tCdfVal])

/-- C10: the MSE each recipe prints is in-sample training error, whatever
the external fitting libraries do: each recipe's fitted model is built from
the six predictor columns of the full `longley` table with `Employed` as
target, `predict` is then called on exactly those same predictor columns of
the same table, and the printed MSE compares those predictions against the
same `Employed` column over all 16 rows — no held-out data exists anywhere
in any recipe. -/
theorem recipes_fit_and_predict_in_sample (oracle : ROracle) :
    (fittedOf oracle cartRecipe =
        some (.fitObj .rpart predictorCols .employed (some 5)) ∧
      predictionsOf oracle cartRecipe =
        some (.numvec (oracle .rpart predictorCols .employed predictorCols)) ∧
      lastPrinted oracle cartRecipe =
        some (.num (mseFun longleyEmployed
          (oracle .rpart predictorCols .employed predictorCols)))) ∧
    (fittedOf oracle baggingRecipe =
        some (.fitObj .bagging predictorCols .employed (some 5)) ∧
      predictionsOf oracle baggingRecipe =
        some (.numvec (oracle .bagging predictorCols .employed predictorCols)) ∧
      lastPrinted oracle baggingRecipe =
        some (.num (mseFun longleyEmployed
          (oracle .bagging predictorCols .employed predictorCols)))) ∧
    (fittedOf oracle randomForestRecipe =
        some (.fitObj .randomForest predictorCols .employed none) ∧
      predictionsOf oracle randomForestRecipe =
        some (.numvec (oracle .randomForest predictorCols .employed predictorCols)) ∧
      lastPrinted oracle randomForestRecipe =
        some (.num (mseFun longleyEmployed
          (oracle .randomForest predictorCols .employed predictorCols)))) ∧
    (fittedOf oracle cubistRecipe =
        some (.fitObj .cubist predictorCols .employed none) ∧
      predictionsOf oracle cubistRecipe =
        some (.numvec (oracle .cubist predictorCols .employed predictorCols)) ∧
      lastPrinted oracle cubistRecipe =
        some (.num (mseFun longleyEmployed
          (oracle .cubist predictorCols .employed predictorCols)))) :=
  ⟨⟨rfl, rfl, rfl⟩, ⟨rfl, rfl, rfl⟩, ⟨rfl, rfl, rfl⟩, ⟨rfl, rfl, rfl⟩⟩

end AppliedML
